import Mathlib

/-!
Shallow embedding of the wii-ext-rs Wii extension-controller driver.

Bytes are modelled as natural numbers (device-provided bytes are < 256;
masks in the decoders keep every derived field in byte range).  Rust slice
indexing, which panics out of bounds, is modelled with `List.get?`: a
decoder returns `none` exactly when an index would have panicked, so
"never panics" becomes "always returns `some`".  Machine-integer casts and
wrapping are made explicit (`% 256` for `as u8`, a wrap-around model for
`i16`).  Every definition is translated from the repository source; the
file points at the source file next to each definition.  Definitions under
`OldRev` come from the earlier in-tree revision of the crate (the files
directly under `src/`), which differs from the current `wii-ext` crate.
-/

namespace WiiExt

/-- Decoded classic-controller data; `src/wii-ext/src/core/classic.rs`, `ClassicReading`. -/
structure ClassicReading where
  joystick_left_x : ℕ
  joystick_left_y : ℕ
  joystick_right_x : ℕ
  joystick_right_y : ℕ
  trigger_left : ℕ
  trigger_right : ℕ
  dpad_up : Bool
  dpad_down : Bool
  dpad_left : Bool
  dpad_right : Bool
  button_b : Bool
  button_a : Bool
  button_x : Bool
  button_y : Bool
  button_trigger_l : Bool
  button_trigger_r : Bool
  button_zl : Bool
  button_zr : Bool
  button_minus : Bool
  button_plus : Bool
  button_home : Bool
deriving DecidableEq

/-- Calibrated classic-controller data (axes stored as signed 8-bit, here ℤ);
`src/wii-ext/src/core/classic.rs`, `ClassicReadingCalibrated`. -/
structure ClassicReadingCalibrated where
  joystick_left_x : ℤ
  joystick_left_y : ℤ
  joystick_right_x : ℤ
  joystick_right_y : ℤ
  trigger_left : ℤ
  trigger_right : ℤ
  dpad_up : Bool
  dpad_down : Bool
  dpad_left : Bool
  dpad_right : Bool
  button_b : Bool
  button_a : Bool
  button_x : Bool
  button_y : Bool
  button_trigger_l : Bool
  button_trigger_r : Bool
  button_zl : Bool
  button_zr : Bool
  button_minus : Bool
  button_plus : Bool
  button_home : Bool
deriving DecidableEq

/-- Per-axis resting values; `src/wii-ext/src/core/classic.rs`, `CalibrationData`. -/
structure CalibrationData where
  joystick_left_x : ℕ
  joystick_left_y : ℕ
  joystick_right_x : ℕ
  joystick_right_y : ℕ
  trigger_left : ℕ
  trigger_right : ℕ
deriving DecidableEq

/-- Wrap-around semantics of Rust `i16` arithmetic on a mathematical integer. -/
def wrapI16 (z : ℤ) : ℤ := (z + 2 ^ 15) % 2 ^ 16 - 2 ^ 15

/-- Rust `res.clamp(i8::MIN as i16, i8::MAX as i16)`. -/
def clampI8 (z : ℤ) : ℤ := max (-128) (min z 127)

/-- Embedding of `ext_u8_sub` (`src/wii-ext/src/core/classic.rs` line 67, and the
identical local function in `core/nunchuk.rs`): cast both `u8` arguments to `i16`
(exact, the values are at most 255), subtract in `i16` (modelled with explicit
wrap-around), clamp to the `i8` range, and return as `i8` (exact after the clamp). -/
def ext_u8_sub (a b : ℕ) : ℤ := clampI8 (wrapI16 ((a : ℤ) - (b : ℤ)))

/-- Embedding of `ClassicReadingCalibrated::new`
(`src/wii-ext/src/core/classic.rs` lines 64-95). -/
def ClassicReadingCalibrated.new (r : ClassicReading) (c : CalibrationData) :
    ClassicReadingCalibrated where
  joystick_left_x := ext_u8_sub r.joystick_left_x c.joystick_left_x
  joystick_left_y := ext_u8_sub r.joystick_left_y c.joystick_left_y
  joystick_right_x := ext_u8_sub r.joystick_right_x c.joystick_right_x
  joystick_right_y := ext_u8_sub r.joystick_right_y c.joystick_right_y
  trigger_left := ext_u8_sub r.trigger_left c.trigger_left
  trigger_right := ext_u8_sub r.trigger_right c.trigger_right
  dpad_up := r.dpad_up
  dpad_down := r.dpad_down
  dpad_left := r.dpad_left
  dpad_right := r.dpad_right
  button_b := r.button_b
  button_a := r.button_a
  button_x := r.button_x
  button_y := r.button_y
  button_trigger_l := r.button_trigger_l
  button_trigger_r := r.button_trigger_r
  button_zl := r.button_zl
  button_zr := r.button_zr
  button_minus := r.button_minus
  button_plus := r.button_plus
  button_home := r.button_home

/-- Embedding of the `CalibrationData` literal built by `Classic::update_calibration`
(`src/wii-ext/src/blocking_impl/classic.rs` lines 63-70); the async variant
(`src/wii-ext/src/async_impl/classic.rs` lines 49-56) builds the identical literal.
Note the source stores `data.trigger_left` into the `trigger_right` field. -/
def captureCalibrationClassic (data : ClassicReading) : CalibrationData where
  joystick_left_x := data.joystick_left_x
  joystick_left_y := data.joystick_left_y
  joystick_right_x := data.joystick_right_x
  joystick_right_y := data.joystick_right_y
  trigger_left := data.trigger_left
  trigger_right := data.trigger_left

/-- Embedding of `ClassicReading::scale_5bit_8bit`
(`src/wii-ext/src/core/classic.rs` line 215): `((reading as u32 * 255) / 31) as u8`.
The `u32` product of two byte-sized values never wraps; the final `as u8` cast is
the `% 256`. -/
def scale_5bit_8bit (reading : ℕ) : ℕ := reading * 255 / 31 % 256

/-- Embedding of `ClassicReading::scale_6bit_8bit`
(`src/wii-ext/src/core/classic.rs` line 221). -/
def scale_6bit_8bit (reading : ℕ) : ℕ := reading * 255 / 63 % 256

/-- Embedding of `decode_classic_report` (`src/wii-ext/src/core/classic.rs`
lines 100-140).  Slice indexing is modelled with `List.get?`; the decoder in the
source indexes bytes 0-5, so the embedding returns `none` exactly when the Rust
code would panic (which `from_data` makes unreachable by checking the length). -/
def decode_classic_report (data : List ℕ) : Option ClassicReading :=
  match data.get? 0, data.get? 1, data.get? 2, data.get? 3, data.get? 4, data.get? 5 with
  | some d0, some d1, some d2, some d3, some d4, some d5 =>
    some {
      joystick_left_x := scale_6bit_8bit (d0 &&& 63)
      joystick_left_y := scale_6bit_8bit (d1 &&& 63)
      joystick_right_x := scale_5bit_8bit
        (((d2 &&& 128) >>> 7) ||| ((d1 &&& 192) >>> 5) ||| ((d0 &&& 192) >>> 3))
      joystick_right_y := scale_5bit_8bit (d2 &&& 31)
      trigger_left := scale_5bit_8bit (((d2 &&& 96) >>> 2) ||| ((d3 &&& 224) >>> 5))
      trigger_right := scale_5bit_8bit (d3 &&& 31)
      dpad_right := d4 &&& 128 == 0
      dpad_down := d4 &&& 64 == 0
      button_trigger_l := d4 &&& 32 == 0
      button_minus := d4 &&& 16 == 0
      button_home := d4 &&& 8 == 0
      button_plus := d4 &&& 4 == 0
      button_trigger_r := d4 &&& 2 == 0
      button_zl := d5 &&& 128 == 0
      button_b := d5 &&& 64 == 0
      button_y := d5 &&& 32 == 0
      button_a := d5 &&& 16 == 0
      button_x := d5 &&& 8 == 0
      button_zr := d5 &&& 4 == 0
      dpad_left := d5 &&& 2 == 0
      dpad_up := d5 &&& 1 == 0 }
  | _, _, _, _, _, _ => none

/-- Embedding of `decode_classic_hd_report` (`src/wii-ext/src/core/classic.rs`
lines 144-179); indexes bytes 0-7. -/
def decode_classic_hd_report (data : List ℕ) : Option ClassicReading :=
  match data.get? 0, data.get? 1, data.get? 2, data.get? 3,
        data.get? 4, data.get? 5, data.get? 6, data.get? 7 with
  | some d0, some d1, some d2, some d3, some d4, some d5, some d6, some d7 =>
    some {
      joystick_left_x := d0
      joystick_right_x := d1
      joystick_left_y := d2
      joystick_right_y := d3
      trigger_left := d4
      trigger_right := d5
      dpad_right := d6 &&& 128 == 0
      dpad_down := d6 &&& 64 == 0
      button_trigger_l := d6 &&& 32 == 0
      button_minus := d6 &&& 16 == 0
      button_home := d6 &&& 8 == 0
      button_plus := d6 &&& 4 == 0
      button_trigger_r := d6 &&& 2 == 0
      button_zl := d7 &&& 128 == 0
      button_b := d7 &&& 64 == 0
      button_y := d7 &&& 32 == 0
      button_a := d7 &&& 16 == 0
      button_x := d7 &&& 8 == 0
      button_zr := d7 &&& 4 == 0
      dpad_left := d7 &&& 2 == 0
      dpad_up := d7 &&& 1 == 0 }
  | _, _, _, _, _, _, _, _ => none

/-- Embedding of `ClassicReading::from_data` (`src/wii-ext/src/core/classic.rs`
lines 227-237): length 6 dispatches to the standard decoder, length 8 to the
high-resolution decoder, anything else is `None`. -/
def ClassicReading.from_data (data : List ℕ) : Option ClassicReading :=
  if data.length = 6 then decode_classic_report data
  else if data.length = 8 then decode_classic_hd_report data
  else none

/-- Decoded nunchuk data; `src/wii-ext/src/core/nunchuk.rs`, `NunchukReading`. -/
structure NunchukReading where
  joystick_x : ℕ
  joystick_y : ℕ
  accel_x : ℕ
  accel_y : ℕ
  accel_z : ℕ
  button_c : Bool
  button_z : Bool
deriving DecidableEq

/-- Embedding of `NunchukReading::from_data` (`src/wii-ext/src/core/nunchuk.rs`
lines 17-31): the source rejects only slices shorter than 6 bytes and otherwise
decodes bytes 0-5. -/
def NunchukReading.from_data (data : List ℕ) : Option NunchukReading :=
  if data.length < 6 then none
  else
    match data.get? 0, data.get? 1, data.get? 2, data.get? 3, data.get? 4, data.get? 5 with
    | some d0, some d1, some d2, some d3, some d4, some d5 =>
      some {
        joystick_x := d0
        joystick_y := d1
        accel_x := (d2 <<< 2) ||| ((d5 >>> 6) &&& 3)
        accel_y := (d3 <<< 2) ||| ((d5 >>> 4) &&& 3)
        accel_z := (d4 <<< 2) ||| ((d5 >>> 2) &&& 3)
        button_c := d5 &&& 2 == 0
        button_z := d5 &&& 1 == 0 }
    | _, _, _, _, _, _ => none

/-- Nunchuk per-axis resting values; `src/wii-ext/src/core/nunchuk.rs`,
`CalibrationData` (joystick only). -/
structure NunchukCalibrationData where
  joystick_x : ℕ
  joystick_y : ℕ
deriving DecidableEq

/-- Calibrated nunchuk data; `src/wii-ext/src/core/nunchuk.rs`,
`NunchukReadingCalibrated`. -/
structure NunchukReadingCalibrated where
  joystick_x : ℤ
  joystick_y : ℤ
  accel_x : ℕ
  accel_y : ℕ
  accel_z : ℕ
  button_c : Bool
  button_z : Bool
deriving DecidableEq

/-- Embedding of `NunchukReadingCalibrated::new`
(`src/wii-ext/src/core/nunchuk.rs` lines 63-80). -/
def NunchukReadingCalibrated.new (r : NunchukReading) (c : NunchukCalibrationData) :
    NunchukReadingCalibrated where
  joystick_x := ext_u8_sub r.joystick_x c.joystick_x
  joystick_y := ext_u8_sub r.joystick_y c.joystick_y
  accel_x := r.accel_x
  accel_y := r.accel_y
  accel_z := r.accel_z
  button_c := r.button_c
  button_z := r.button_z

/-- Controller classification result; `src/src/common.rs`, `ControllerType`
(`None` from `identify_controller` plays the role of Unrecognized). -/
inductive ControllerType where
  | Nunchuk
  | Classic
  | ClassicPro
deriving DecidableEq

/-- A 6-byte controller identity block; `src/src/common.rs`,
`ControllerIdReport = [u8; 6]` (one field per array position). -/
structure ControllerIdReport where
  b0 : ℕ
  b1 : ℕ
  b2 : ℕ
  b3 : ℕ
  b4 : ℕ
  b5 : ℕ
deriving DecidableEq

/-- Embedding of `identify_controller` (`src/src/common.rs` lines 25-42). -/
def identify_controller (id : ControllerIdReport) : Option ControllerType :=
  if id.b2 ≠ 164 ∨ id.b3 ≠ 32 then none
  else if id.b0 = 0 ∧ id.b1 = 0 ∧ id.b4 = 0 ∧ id.b5 = 0 then some ControllerType.Nunchuk
  else if id.b0 = 0 ∧ id.b1 = 0 ∧ id.b4 = 3 ∧ id.b5 = 1 then some ControllerType.Classic
  else if id.b0 = 1 ∧ id.b1 = 0 ∧ id.b4 = 1 ∧ id.b5 = 1 then some ControllerType.ClassicPro
  else none

namespace OldRev

/-- Embedding of the earlier-revision `ClassicReading::scale_5bit_8bit`
(`src/src/classic.rs` line 261): `reading * 8` in `u8` arithmetic. -/
def scale_5bit_8bit (reading : ℕ) : ℕ := reading * 8 % 256

/-- Embedding of the earlier-revision `ClassicReading::scale_6bit_8bit`
(`src/src/classic.rs` line 268): `reading * 4` in `u8` arithmetic. -/
def scale_6bit_8bit (reading : ℕ) : ℕ := reading * 4 % 256

/-- Embedding of the earlier-revision `decode_classic_report`
(`src/src/classic.rs` lines 137-177): merges the split right-stick-X and
left-trigger fields with bitwise AND instead of OR, and scales the
right-stick Y with the 6-bit scaler. -/
def decode_classic_report (data : List ℕ) : Option ClassicReading :=
  match data.get? 0, data.get? 1, data.get? 2, data.get? 3, data.get? 4, data.get? 5 with
  | some d0, some d1, some d2, some d3, some d4, some d5 =>
    some {
      joystick_left_x := scale_6bit_8bit (d0 &&& 63)
      joystick_left_y := scale_6bit_8bit (d1 &&& 63)
      joystick_right_x := scale_5bit_8bit
        (((d2 &&& 128) >>> 7) &&& ((d1 &&& 192) >>> 5) &&& ((d0 &&& 192) >>> 3))
      joystick_right_y := scale_6bit_8bit (d2 &&& 31)
      trigger_left := scale_5bit_8bit (((d2 &&& 96) >>> 2) &&& ((d3 &&& 224) >>> 5))
      trigger_right := scale_5bit_8bit (d3 &&& 31)
      dpad_right := d4 &&& 128 == 0
      dpad_down := d4 &&& 64 == 0
      button_trigger_l := d4 &&& 32 == 0
      button_minus := d4 &&& 16 == 0
      button_home := d4 &&& 8 == 0
      button_plus := d4 &&& 4 == 0
      button_trigger_r := d4 &&& 2 == 0
      button_zl := d5 &&& 128 == 0
      button_b := d5 &&& 64 == 0
      button_y := d5 &&& 32 == 0
      button_a := d5 &&& 16 == 0
      button_x := d5 &&& 8 == 0
      button_zr := d5 &&& 4 == 0
      dpad_left := d5 &&& 2 == 0
      dpad_up := d5 &&& 1 == 0 }
  | _, _, _, _, _, _ => none

/-- Embedding of the `CalibrationData` literal built by the earlier-revision
`Classic::update_calibration` (`src/src/classic_sync.rs` lines 76-83); like the
current revision it stores `data.trigger_left` into the `trigger_right` field.
The earlier-revision `ClassicReadingCalibrated::new` (`src/src/classic.rs`
lines 240-273) is textually identical to the current one, so the pipeline below
reuses `ClassicReadingCalibrated.new`. -/
def captureCalibration (data : ClassicReading) : CalibrationData where
  joystick_left_x := data.joystick_left_x
  joystick_left_y := data.joystick_left_y
  joystick_right_x := data.joystick_right_x
  joystick_right_y := data.joystick_right_y
  trigger_left := data.trigger_left
  trigger_right := data.trigger_left

/-- Earlier-revision calibrate-then-read pipeline: decode a baseline block and a
sample block with the earlier-revision decoder, capture the baseline as
`update_calibration` does (`src/src/classic_sync.rs`), and apply it as
`read_blocking` does. -/
def classicCalibratedSample (base sample : List ℕ) : Option ClassicReadingCalibrated :=
  match OldRev.decode_classic_report base, OldRev.decode_classic_report sample with
  | some b, some s => some (ClassicReadingCalibrated.new s (OldRev.captureCalibration b))
  | _, _ => none

end OldRev

/-- Current-revision calibrate-then-read pipeline: `Classic::update_calibration`
captures the baseline from a decoded block (`src/wii-ext/src/blocking_impl/classic.rs`
lines 60-72) and `Classic::read_blocking` (lines 146-151) applies it to the next
decoded block with `ClassicReadingCalibrated::new`. -/
def classicCalibratedSample (base sample : List ℕ) : Option ClassicReadingCalibrated :=
  match ClassicReading.from_data base, ClassicReading.from_data sample with
  | some b, some s => some (ClassicReadingCalibrated.new s (captureCalibrationClassic b))
  | _, _ => none

/-- One bus transaction issued by the driver, as seen on the I2C wire
(`Interface`, `src/wii-ext/src/blocking_impl/interface.rs`, and
`InterfaceAsync`, `src/wii-ext/src/async_impl/interface.rs`). -/
inductive BusOp where
  | write (data : List ℕ)
  | read (len : ℕ)
  | delayUs (us : ℕ)
deriving DecidableEq

/-- Device-side semantics of a bus-operation trace: a single-byte write sets the
register cursor (the source comment on `set_read_register_address` documents the
cursor and its auto-increment on reads), a block read returns `len` registers from
the cursor and advances it, delays and two-byte register-value writes do not move
the cursor.  Returns the concatenation of all bytes read. -/
def runOps (regs : ℕ → ℕ) : ℕ → List BusOp → List ℕ
  | _, [] => []
  | _, BusOp.write [b] :: rest => runOps regs b rest
  | c, BusOp.write _ :: rest => runOps regs c rest
  | c, BusOp.read n :: rest =>
      ((List.range n).map fun i => regs (c + i)) ++ runOps regs (c + n) rest
  | c, BusOp.delayUs _ :: rest => runOps regs c rest

/-- Wire trace of blocking `Interface::read_id`
(`src/wii-ext/src/blocking_impl/interface.rs` lines 54-58):
`set_read_register_address(0xfa)` then `read_report()` (a 6-byte block read),
with no other operation in between. -/
def readIdTraceBlocking : List BusOp := [BusOp.write [250], BusOp.read 6]

/-- Wire trace of async `InterfaceAsync::read_id`
(`src/wii-ext/src/async_impl/interface.rs` lines 151-155):
`set_read_register_address(0xfa)` then `read_ext_report()`, which itself first
runs `start_sample()` (a `[0x00]` cursor write) and an inter-message delay
before the 6-byte block read (lines 47-56). -/
def readIdTraceAsync : List BusOp :=
  [BusOp.write [250], BusOp.write [0], BusOp.delayUs 200, BusOp.read 6]

/-- Bytes handed to `identify_controller` by the blocking path
(`Interface::identify_controller` passes the `read_id` result on). -/
def readIdBytesBlocking (regs : ℕ → ℕ) : List ℕ := runOps regs 0 readIdTraceBlocking

/-- Bytes handed to `identify_controller` by the async path. -/
def readIdBytesAsync (regs : ℕ → ℕ) : List ℕ := runOps regs 0 readIdTraceAsync

/-- Driver-held state of the Classic façade: the resolution flag and the stored
calibration (`src/wii-ext/src/blocking_impl/classic.rs` lines 29-33 and
`src/wii-ext/src/async_impl/classic.rs` lines 18-22). -/
structure ClassicState where
  hires : Bool
  calibration : CalibrationData
deriving DecidableEq

/-- A successful fixed-size block read into a `[u8; n]` buffer: the transport
always hands the decoder exactly `n` bytes (`Interface::read_report` /
`read_hd_report` read into `ExtReport` / `ExtHdReport` arrays). -/
def busReadBytes (regs : ℕ → ℕ) (n : ℕ) : List ℕ := (List.range n).map regs

/-- Embedding of blocking `Classic::read_report_blocking`
(`src/wii-ext/src/blocking_impl/classic.rs` lines 140-143):
`start_sample_and_wait` (cursor write + delay) then `read_classic_report`, which
reads 8 bytes in hires mode and 6 otherwise and decodes with `from_data`. -/
def blockingReadReportBlocking (hires : Bool) (regs : ℕ → ℕ) :
    List BusOp × Option ClassicReading :=
  ([BusOp.write [0], BusOp.delayUs 200, BusOp.read (if hires then 8 else 6)],
   ClassicReading.from_data (busReadBytes regs (if hires then 8 else 6)))

/-- Embedding of blocking `Classic::update_calibration`
(`src/wii-ext/src/blocking_impl/classic.rs` lines 60-72). -/
def blockingUpdateCalibration (s : ClassicState) (regs : ℕ → ℕ) :
    List BusOp × Option ClassicState :=
  let p := blockingReadReportBlocking s.hires regs
  (p.1, p.2.map fun data => { s with calibration := captureCalibrationClassic data })

/-- Embedding of blocking `Classic::enable_hires`
(`src/wii-ext/src/blocking_impl/classic.rs` lines 95-100):
`interface.enable_hires()` (delays around a `[0xFE, 0x03]` register write), then
`self.hires = true`, then `update_calibration()`. -/
def blockingEnableHires (s : ClassicState) (regs : ℕ → ℕ) :
    List BusOp × Option ClassicState :=
  let s1 : ClassicState := { s with hires := true }
  let p := blockingUpdateCalibration s1 regs
  ([BusOp.delayUs 400, BusOp.write [254, 3], BusOp.delayUs 400] ++ p.1, p.2)

/-- Embedding of async `ClassicAsync::enable_hires`
(`src/wii-ext/src/async_impl/classic.rs` lines 99-101): it only awaits
`interface.enable_hires()` (`src/wii-ext/src/async_impl/interface.rs` lines 91-95,
a delayed `[0xFE, 0x03]` write plus a settle delay); the driver state — the
`hires` flag and the stored calibration — is left untouched. -/
def asyncEnableHires (s : ClassicState) : List BusOp × ClassicState :=
  ([BusOp.delayUs 200, BusOp.write [254, 3], BusOp.delayUs 100000], s)

/-- Driver error type (`BlockingImplError`,
`src/wii-ext/src/blocking_impl/interface.rs` lines 15-20). -/
inductive DriverError (ε : Type) where
  | I2C (e : ε)
  | InvalidInputData
deriving DecidableEq

/-- Embedding of blocking `Classic::read_classic_report`
(`src/wii-ext/src/blocking_impl/classic.rs` lines 123-131): a bus failure is
propagated as `I2C`; on success the fixed-size buffer (8 bytes in hires mode,
6 otherwise) is decoded with `from_data`, and a `None` decode becomes
`InvalidInputData`.  The async `read_classic_report`
(`src/wii-ext/src/async_impl/classic.rs` lines 76-84) has the same structure
with the same fixed buffer sizes. -/
def read_classic_report {ε : Type} (hires : Bool) (bus : Except ε (ℕ → ℕ)) :
    Except (DriverError ε) ClassicReading :=
  match bus with
  | Except.error e => Except.error (DriverError.I2C e)
  | Except.ok regs =>
    match ClassicReading.from_data (busReadBytes regs (if hires then 8 else 6)) with
    | some r => Except.ok r
    | none => Except.error DriverError.InvalidInputData

/-- Embedding of blocking `Nunchuk::read_nunchuk`
(`src/wii-ext/src/blocking_impl/nunchuk.rs` lines 81-84): a 6-byte fixed-size
read decoded with `NunchukReading::from_data`. -/
def read_nunchuk {ε : Type} (bus : Except ε (ℕ → ℕ)) :
    Except (DriverError ε) NunchukReading :=
  match bus with
  | Except.error e => Except.error (DriverError.I2C e)
  | Except.ok regs =>
    match NunchukReading.from_data (busReadBytes regs 6) with
    | some r => Except.ok r
    | none => Except.error DriverError.InvalidInputData

/-! Helper lemmas shared by the claim theorems. -/

/-- A list of length 6 is a literal six-element list. -/
lemma list_shape_six (l : List ℕ) (h : l.length = 6) :
    ∃ b0 b1 b2 b3 b4 b5, l = [b0, b1, b2, b3, b4, b5] := by
  rcases l with _ | ⟨b0, l⟩
  · simp at h
  rcases l with _ | ⟨b1, l⟩
  · simp at h
  rcases l with _ | ⟨b2, l⟩
  · simp at h
  rcases l with _ | ⟨b3, l⟩
  · simp at h
  rcases l with _ | ⟨b4, l⟩
  · simp at h
  rcases l with _ | ⟨b5, l⟩
  · simp at h
  rcases l with _ | ⟨b6, l⟩
  · exact ⟨b0, b1, b2, b3, b4, b5, rfl⟩
  · simp at h

/-- A list of length 8 is a literal eight-element list. -/
lemma list_shape_eight (l : List ℕ) (h : l.length = 8) :
    ∃ b0 b1 b2 b3 b4 b5 b6 b7, l = [b0, b1, b2, b3, b4, b5, b6, b7] := by
  rcases l with _ | ⟨b0, l⟩
  · simp at h
  rcases l with _ | ⟨b1, l⟩
  · simp at h
  rcases l with _ | ⟨b2, l⟩
  · simp at h
  rcases l with _ | ⟨b3, l⟩
  · simp at h
  rcases l with _ | ⟨b4, l⟩
  · simp at h
  rcases l with _ | ⟨b5, l⟩
  · simp at h
  rcases l with _ | ⟨b6, l⟩
  · simp at h
  rcases l with _ | ⟨b7, l⟩
  · simp at h
  rcases l with _ | ⟨b8, l⟩
  · exact ⟨b0, b1, b2, b3, b4, b5, b6, b7, rfl⟩
  · simp at h

/-- A list of length at least 6 starts with six elements. -/
lemma list_shape_ge_six (l : List ℕ) (h : 6 ≤ l.length) :
    ∃ b0 b1 b2 b3 b4 b5 t, l = b0 :: b1 :: b2 :: b3 :: b4 :: b5 :: t := by
  rcases l with _ | ⟨b0, l⟩
  · simp at h
  rcases l with _ | ⟨b1, l⟩
  · simp at h
  rcases l with _ | ⟨b2, l⟩
  · simp at h
  rcases l with _ | ⟨b3, l⟩
  · simp at h
  rcases l with _ | ⟨b4, l⟩
  · simp at h
  rcases l with _ | ⟨b5, l⟩
  · simp at h
  exact ⟨b0, b1, b2, b3, b4, b5, l, rfl⟩

/-- The standard classic decoder succeeds on every 6-byte block. -/
lemma decode_classic_report_of_len6 (l : List ℕ) (h : l.length = 6) :
    ∃ r, decode_classic_report l = some r := by
  obtain ⟨b0, b1, b2, b3, b4, b5, rfl⟩ := list_shape_six l h
  exact ⟨_, rfl⟩

/-- The high-resolution classic decoder succeeds on every 8-byte block. -/
lemma decode_classic_hd_report_of_len8 (l : List ℕ) (h : l.length = 8) :
    ∃ r, decode_classic_hd_report l = some r := by
  obtain ⟨b0, b1, b2, b3, b4, b5, b6, b7, rfl⟩ := list_shape_eight l h
  exact ⟨_, rfl⟩

/-- The nunchuk decoder on a block of length at least 6 uses only bytes 0-5 and
succeeds. -/
lemma nunchuk_from_data_of_ge6 (l : List ℕ) (h : 6 ≤ l.length) :
    NunchukReading.from_data l = NunchukReading.from_data (l.take 6)
    ∧ ∃ r, NunchukReading.from_data l = some r := by
  obtain ⟨b0, b1, b2, b3, b4, b5, t, rfl⟩ := list_shape_ge_six l h
  have hlt : ¬ (b0 :: b1 :: b2 :: b3 :: b4 :: b5 :: t).length < 6 := by
    simp
  constructor
  · simp [NunchukReading.from_data, hlt]
  · refine ⟨⟨b0, b1, (b2 <<< 2) ||| ((b5 >>> 6) &&& 3), (b3 <<< 2) ||| ((b5 >>> 4) &&& 3),
      (b4 <<< 2) ||| ((b5 >>> 2) &&& 3), b5 &&& 2 == 0, b5 &&& 1 == 0⟩, ?_⟩
    simp [NunchukReading.from_data, hlt]

/-! Claim theorems. -/

/-- C1. Calibration self-application is not zero on every axis: with the reading
decoded from the hi-res block `[0,0,0,0,0,100,255,255]` (`trigger_left = 0`,
`trigger_right = 100`) as its own baseline, the calibrated `trigger_right` is
100, not 0, because `update_calibration` stores `data.trigger_left` into the
`trigger_right` baseline field; the five other axes do calibrate to zero. -/
theorem calibration_capture_trigger_right_bug :
    ((ClassicReading.from_data [0, 0, 0, 0, 0, 100, 255, 255]).map fun r =>
        (ClassicReadingCalibrated.new r (captureCalibrationClassic r)).trigger_right) = some 100
  ∧ ((ClassicReading.from_data [0, 0, 0, 0, 0, 100, 255, 255]).map fun r =>
        (ClassicReadingCalibrated.new r (captureCalibrationClassic r)).trigger_left) = some 0
  ∧ ((ClassicReading.from_data [0, 0, 0, 0, 0, 100, 255, 255]).map fun r =>
        (ClassicReadingCalibrated.new r (captureCalibrationClassic r)).joystick_left_x) = some 0
  ∧ ((ClassicReading.from_data [0, 0, 0, 0, 0, 100, 255, 255]).map fun r =>
        (ClassicReadingCalibrated.new r (captureCalibrationClassic r)).joystick_left_y) = some 0
  ∧ ((ClassicReading.from_data [0, 0, 0, 0, 0, 100, 255, 255]).map fun r =>
        (ClassicReadingCalibrated.new r (captureCalibrationClassic r)).joystick_right_x) = some 0
  ∧ ((ClassicReading.from_data [0, 0, 0, 0, 0, 100, 255, 255]).map fun r =>
        (ClassicReadingCalibrated.new r (captureCalibrationClassic r)).joystick_right_y) = some 0
  := by decide

/-- C2 counterexample. A 7-byte slice does not yield a decode error from
`NunchukReading::from_data`: it decodes successfully. -/
theorem nunchuk_from_data_len7_decodes :
    List.length [1, 2, 3, 4, 5, 6, 7] = 7
  ∧ (NunchukReading.from_data [1, 2, 3, 4, 5, 6, 7]).isSome = true := by decide

/-- C2 (amended). `ClassicReading::from_data` dispatches exactly on length 6
(standard path), length 8 (high-resolution path) and rejects every other
length; `NunchukReading::from_data` rejects exactly the slices shorter than 6
bytes and decodes every longer slice via the standard path on bytes 0-5.
Neither decoder can panic: on every dispatched length the decode succeeds. -/
theorem from_data_length_dispatch (l : List ℕ) :
    (l.length = 6 → ClassicReading.from_data l = decode_classic_report l
      ∧ (ClassicReading.from_data l).isSome = true)
  ∧ (l.length = 8 → ClassicReading.from_data l = decode_classic_hd_report l
      ∧ (ClassicReading.from_data l).isSome = true)
  ∧ (l.length ≠ 6 → l.length ≠ 8 → ClassicReading.from_data l = none)
  ∧ (l.length < 6 → NunchukReading.from_data l = none)
  ∧ (6 ≤ l.length → NunchukReading.from_data l = NunchukReading.from_data (l.take 6)
      ∧ (NunchukReading.from_data l).isSome = true) := by
  refine ⟨fun h6 => ⟨?_, ?_⟩, fun h8 => ⟨?_, ?_⟩, fun h6 h8 => ?_, fun hlt => ?_, fun hge => ⟨?_, ?_⟩⟩
  · simp [ClassicReading.from_data, h6]
  · obtain ⟨r, hr⟩ := decode_classic_report_of_len6 l h6
    simp [ClassicReading.from_data, h6, hr]
  · simp [ClassicReading.from_data, h8]
  · obtain ⟨r, hr⟩ := decode_classic_hd_report_of_len8 l h8
    simp [ClassicReading.from_data, h8, hr]
  · simp [ClassicReading.from_data, h6, h8]
  · simp [NunchukReading.from_data, hlt]
  · exact (nunchuk_from_data_of_ge6 l hge).1
  · obtain ⟨r, hr⟩ := (nunchuk_from_data_of_ge6 l hge).2
    simp [hr]

/-- C2 witness. The dispatch theorem applied at a 6-byte, an 8-byte, a 3-byte
and a 7-byte input. -/
theorem from_data_length_dispatch_witness :
    (ClassicReading.from_data [97, 224, 145, 99, 255, 255]).isSome = true
  ∧ (ClassicReading.from_data [1, 2, 3, 4, 5, 6, 7, 8]).isSome = true
  ∧ ClassicReading.from_data [1, 2, 3] = none
  ∧ NunchukReading.from_data [1, 2, 3] = none
  ∧ (NunchukReading.from_data [1, 2, 3, 4, 5, 6, 7]).isSome = true :=
  ⟨((from_data_length_dispatch [97, 224, 145, 99, 255, 255]).1 (by decide)).2,
   ((from_data_length_dispatch [1, 2, 3, 4, 5, 6, 7, 8]).2.1 (by decide)).2,
   (from_data_length_dispatch [1, 2, 3]).2.2.1 (by decide) (by decide),
   (from_data_length_dispatch [1, 2, 3]).2.2.2.1 (by decide),
   ((from_data_length_dispatch [1, 2, 3, 4, 5, 6, 7]).2.2.2.2 (by decide)).2⟩

/-- C3. `identify_controller` follows the ordered classification algorithm
exactly: a failed byte-2/byte-3 guard yields `none` (Unrecognized) regardless of
the other bytes; under the guard, the Nunchuk, Classic and ClassicPro patterns
on bytes 0, 1, 4, 5 yield their types, any other combination yields `none`; the
two literal identity blocks classify as Classic and ClassicPro. -/
theorem identify_controller_complete :
    (∀ id : ControllerIdReport, id.b2 ≠ 164 ∨ id.b3 ≠ 32 → identify_controller id = none)
  ∧ (∀ id : ControllerIdReport, id.b2 = 164 → id.b3 = 32 →
      id.b0 = 0 → id.b1 = 0 → id.b4 = 0 → id.b5 = 0 →
      identify_controller id = some ControllerType.Nunchuk)
  ∧ (∀ id : ControllerIdReport, id.b2 = 164 → id.b3 = 32 →
      id.b0 = 0 → id.b1 = 0 → id.b4 = 3 → id.b5 = 1 →
      identify_controller id = some ControllerType.Classic)
  ∧ (∀ id : ControllerIdReport, id.b2 = 164 → id.b3 = 32 →
      id.b0 = 1 → id.b1 = 0 → id.b4 = 1 → id.b5 = 1 →
      identify_controller id = some ControllerType.ClassicPro)
  ∧ (∀ id : ControllerIdReport, id.b2 = 164 → id.b3 = 32 →
      ¬(id.b0 = 0 ∧ id.b1 = 0 ∧ id.b4 = 0 ∧ id.b5 = 0) →
      ¬(id.b0 = 0 ∧ id.b1 = 0 ∧ id.b4 = 3 ∧ id.b5 = 1) →
      ¬(id.b0 = 1 ∧ id.b1 = 0 ∧ id.b4 = 1 ∧ id.b5 = 1) →
      identify_controller id = none)
  ∧ identify_controller ⟨0, 0, 164, 32, 3, 1⟩ = some ControllerType.Classic
  ∧ identify_controller ⟨1, 0, 164, 32, 1, 1⟩ = some ControllerType.ClassicPro := by
  refine ⟨?_, ?_, ?_, ?_, ?_, by decide, by decide⟩
  · intro id h
    simp [identify_controller, h]
  · intro id h2 h3 h0 h1 h4 h5
    simp [identify_controller, h0, h1, h2, h3, h4, h5]
  · intro id h2 h3 h0 h1 h4 h5
    simp [identify_controller, h0, h1, h2, h3, h4, h5]
  · intro id h2 h3 h0 h1 h4 h5
    simp [identify_controller, h0, h1, h2, h3, h4, h5]
  · intro id h2 h3 hp1 hp2 hp3
    simp [identify_controller, h2, h3, hp1, hp2, hp3]

/-- C3 witness. The classification theorem applied at concrete identity
blocks for each branch. -/
theorem identify_controller_complete_witness :
    identify_controller ⟨0, 0, 164, 32, 0, 0⟩ = some ControllerType.Nunchuk
  ∧ identify_controller ⟨9, 9, 0, 32, 9, 9⟩ = none
  ∧ identify_controller ⟨5, 0, 164, 32, 1, 1⟩ = none :=
  ⟨identify_controller_complete.2.1 ⟨0, 0, 164, 32, 0, 0⟩ rfl rfl rfl rfl rfl rfl,
   identify_controller_complete.1 ⟨9, 9, 0, 32, 9, 9⟩ (Or.inl (by decide)),
   identify_controller_complete.2.2.2.2.1 ⟨5, 0, 164, 32, 1, 1⟩ rfl rfl
     (by decide) (by decide) (by decide)⟩

/-- C4 counterexample. The earlier-revision scaling functions are bit-shift
approximations: `scale_5bit_8bit 31 = 248`, not `255 = 31 * 255 / 31`, and
`scale_6bit_8bit 63 = 252`, not `255`. -/
theorem oldrev_scale_not_exact :
    OldRev.scale_5bit_8bit 31 = 248
  ∧ OldRev.scale_5bit_8bit 31 ≠ 31 * 255 / 31
  ∧ OldRev.scale_6bit_8bit 63 = 252
  ∧ OldRev.scale_6bit_8bit 63 ≠ 63 * 255 / 63 := by decide

/-- C4 (amended). The current core decoder's scaling functions are exact:
on the 5-bit range they equal `v * 255 / 31`, are monotone and map 0 to 0 and
31 to 255; on the 6-bit range they equal `v * 255 / 63`, are monotone and map
0 to 0 and 63 to 255. -/
theorem scale_exact_monotone :
    scale_5bit_8bit 0 = 0
  ∧ scale_5bit_8bit 31 = 255
  ∧ (∀ v ≤ 31, scale_5bit_8bit v = v * 255 / 31)
  ∧ (∀ b ≤ 31, ∀ a ≤ b, scale_5bit_8bit a ≤ scale_5bit_8bit b)
  ∧ scale_6bit_8bit 0 = 0
  ∧ scale_6bit_8bit 63 = 255
  ∧ (∀ v ≤ 63, scale_6bit_8bit v = v * 255 / 63)
  ∧ (∀ b ≤ 63, ∀ a ≤ b, scale_6bit_8bit a ≤ scale_6bit_8bit b) := by decide

/-- C4 witness. The scaling theorem applied at concrete inputs. -/
theorem scale_exact_monotone_witness :
    scale_5bit_8bit 20 = 20 * 255 / 31
  ∧ scale_5bit_8bit 7 ≤ scale_5bit_8bit 20
  ∧ scale_6bit_8bit 40 = 40 * 255 / 63
  ∧ scale_6bit_8bit 11 ≤ scale_6bit_8bit 40 :=
  ⟨scale_exact_monotone.2.2.1 20 (by decide),
   scale_exact_monotone.2.2.2.1 20 (by decide) 7 (by decide),
   scale_exact_monotone.2.2.2.2.2.2.1 40 (by decide),
   scale_exact_monotone.2.2.2.2.2.2.2 40 (by decide) 11 (by decide)⟩

/-- C5. The literal idle block decodes to all buttons and d-pad directions
released; calibrating against it and reading the left-deflection block gives
calibrated left-stick X of -97 (beyond the -90 full-deflection threshold the
repository tests use), left-stick Y of 4 and all remaining axes 0 (within the
±8 slop the tests use), with every button still released.  Under the
earlier-revision AND-merge decoder and its calibration capture the same pair of
blocks leaves a calibrated `trigger_right` of 24, outside that ±8 band. -/
theorem classic_idle_ljoy_scenario :
    ClassicReading.from_data [97, 224, 145, 99, 255, 255] =
      some ⟨133, 129, 123, 139, 24, 24, false, false, false, false, false, false, false,
        false, false, false, false, false, false, false, false⟩
  ∧ classicCalibratedSample [97, 224, 145, 99, 255, 255] [73, 225, 145, 99, 255, 255] =
      some ⟨-97, 4, 0, 0, 0, 0, false, false, false, false, false, false, false,
        false, false, false, false, false, false, false, false⟩
  ∧ (OldRev.classicCalibratedSample [97, 224, 145, 99, 255, 255]
        [73, 225, 145, 99, 255, 255]).map (fun c => c.trigger_right) = some 24 := by decide

/-- C6. For byte-valued inputs the `i16` subtraction inside `ext_u8_sub` cannot
wrap (the difference lies in `[-255, 255]`), the result is the difference
clamped to `[-128, 127]`, and both calibration constructors apply `ext_u8_sub`
to every analog axis while passing every button field through unchanged. -/
theorem calibrated_subtraction_clamped :
    (∀ a b : ℕ, a ≤ 255 → b ≤ 255 →
        wrapI16 ((a : ℤ) - b) = (a : ℤ) - b
      ∧ ext_u8_sub a b = max (-128) (min ((a : ℤ) - b) 127)
      ∧ -128 ≤ ext_u8_sub a b ∧ ext_u8_sub a b ≤ 127)
  ∧ (∀ (r : ClassicReading) (c : CalibrationData),
      ClassicReadingCalibrated.new r c =
        ⟨ext_u8_sub r.joystick_left_x c.joystick_left_x,
         ext_u8_sub r.joystick_left_y c.joystick_left_y,
         ext_u8_sub r.joystick_right_x c.joystick_right_x,
         ext_u8_sub r.joystick_right_y c.joystick_right_y,
         ext_u8_sub r.trigger_left c.trigger_left,
         ext_u8_sub r.trigger_right c.trigger_right,
         r.dpad_up, r.dpad_down, r.dpad_left, r.dpad_right,
         r.button_b, r.button_a, r.button_x, r.button_y,
         r.button_trigger_l, r.button_trigger_r, r.button_zl, r.button_zr,
         r.button_minus, r.button_plus, r.button_home⟩)
  ∧ (∀ (r : NunchukReading) (c : NunchukCalibrationData),
      NunchukReadingCalibrated.new r c =
        ⟨ext_u8_sub r.joystick_x c.joystick_x,
         ext_u8_sub r.joystick_y c.joystick_y,
         r.accel_x, r.accel_y, r.accel_z, r.button_c, r.button_z⟩) := by
  refine ⟨?_, fun r c => rfl, fun r c => rfl⟩
  intro a b ha hb
  unfold ext_u8_sub clampI8 wrapI16
  refine ⟨?_, ?_, ?_, ?_⟩ <;> omega

/-- C6 witness. The clamped-subtraction theorem applied at concrete bytes and
concrete readings. -/
theorem calibrated_subtraction_clamped_witness :
    ext_u8_sub 10 200 = max (-128) (min ((10 : ℤ) - 200) 127)
  ∧ -128 ≤ ext_u8_sub 10 200
  ∧ (ClassicReadingCalibrated.new
        ⟨1, 2, 3, 4, 5, 6, true, false, true, false, true, false, true, false, true,
          false, true, false, true, false, true⟩ ⟨7, 8, 9, 10, 11, 12⟩).button_home = true :=
  ⟨((calibrated_subtraction_clamped.1 10 200 (by decide) (by decide)).2.1),
   ((calibrated_subtraction_clamped.1 10 200 (by decide) (by decide)).2.2.1),
   by rw [calibrated_subtraction_clamped.2.1
      ⟨1, 2, 3, 4, 5, 6, true, false, true, false, true, false, true, false, true,
        false, true, false, true, false, true⟩ ⟨7, 8, 9, 10, 11, 12⟩]⟩

/-- C7. Blocking `enable_hires` performs all three steps: its wire trace
contains the `[0xFE, 0x03]` register write, the resulting state has the hires
flag set, and the calibration baseline is recaptured from the fresh 8-byte
sample.  Async `enable_hires` only issues the register write: it returns the
driver state unchanged, with the hires flag and the stored calibration exactly
as before the call. -/
theorem enable_hires_async_incomplete (s : ClassicState) (regs : ℕ → ℕ) :
    BusOp.write [254, 3] ∈ (blockingEnableHires s regs).1
  ∧ (∃ r, ClassicReading.from_data (busReadBytes regs 8) = some r
      ∧ (blockingEnableHires s regs).2 = some ⟨true, captureCalibrationClassic r⟩)
  ∧ asyncEnableHires s = ([BusOp.delayUs 200, BusOp.write [254, 3], BusOp.delayUs 100000], s)
  ∧ (asyncEnableHires s).2.hires = s.hires
  ∧ (asyncEnableHires s).2.calibration = s.calibration := by
  refine ⟨?_, ⟨_, rfl, rfl⟩, rfl, rfl, rfl⟩
  simp [blockingEnableHires, blockingUpdateCalibration, blockingReadReportBlocking]

/-- C7 witness. The enable-hires theorem applied at a concrete initial state
and device: blocking sets the flag, async leaves it clear. -/
theorem enable_hires_async_incomplete_witness :
    BusOp.write [254, 3] ∈ (blockingEnableHires ⟨false, ⟨0, 0, 0, 0, 0, 0⟩⟩ (fun i => i)).1
  ∧ (asyncEnableHires ⟨false, ⟨0, 0, 0, 0, 0, 0⟩⟩).2.hires = false :=
  ⟨(enable_hires_async_incomplete ⟨false, ⟨0, 0, 0, 0, 0, 0⟩⟩ (fun i => i)).1,
   (enable_hires_async_incomplete ⟨false, ⟨0, 0, 0, 0, 0, 0⟩⟩ (fun i => i)).2.2.2.1⟩

/-- C8. Blocking `read_id` issues exactly the `[0xFA]` cursor write followed by
the 6-byte block read, so under the cursor semantics it hands identification
the bytes of registers 0xFA-0xFF; async `read_id` issues a `[0x00]` cursor
write (from `read_ext_report`'s `start_sample`) between the `[0xFA]` write and
the block read, so it hands identification the bytes of registers 0-5
instead. -/
theorem read_id_cursor_sequence (regs : ℕ → ℕ) :
    readIdTraceBlocking = [BusOp.write [250], BusOp.read 6]
  ∧ BusOp.write [0] ∉ readIdTraceBlocking
  ∧ readIdBytesBlocking regs =
      [regs 250, regs 251, regs 252, regs 253, regs 254, regs 255]
  ∧ readIdTraceAsync =
      [BusOp.write [250], BusOp.write [0], BusOp.delayUs 200, BusOp.read 6]
  ∧ BusOp.write [0] ∈ readIdTraceAsync
  ∧ readIdBytesAsync regs = [regs 0, regs 1, regs 2, regs 3, regs 4, regs 5] := by
  exact ⟨rfl, by decide, rfl, rfl, by decide, rfl⟩

/-- C8 witness. The read-id theorem applied at the identity register map. -/
theorem read_id_cursor_sequence_witness :
    readIdBytesBlocking (fun i => i) = [250, 251, 252, 253, 254, 255]
  ∧ readIdBytesAsync (fun i => i) = [0, 1, 2, 3, 4, 5] :=
  ⟨(read_id_cursor_sequence (fun i => i)).2.2.1,
   (read_id_cursor_sequence (fun i => i)).2.2.2.2.2⟩

/-- C10. The façade read paths can never produce `InvalidInputData`: the
transport fills fixed-size buffers (8 bytes in hires mode, 6 otherwise, 6 for
the nunchuk), on which the decoders always succeed, so whenever the bus read
succeeds the report readers return `Ok` and the only possible error is a
propagated bus error. -/
theorem facade_invalid_input_unreachable (ε : Type) (hires : Bool)
    (bus : Except ε (ℕ → ℕ)) :
    read_classic_report hires bus ≠ Except.error DriverError.InvalidInputData
  ∧ read_nunchuk bus ≠ Except.error DriverError.InvalidInputData
  ∧ (∀ regs, bus = Except.ok regs →
      (∃ r, read_classic_report hires bus = Except.ok r)
    ∧ (∃ n, read_nunchuk bus = Except.ok n)) := by
  cases bus with
  | error e =>
    refine ⟨by simp [read_classic_report], by simp [read_nunchuk], ?_⟩
    intro regs h
    exact absurd h (by simp)
  | ok regs =>
    have hc : ∃ r, read_classic_report hires (Except.ok regs : Except ε (ℕ → ℕ)) =
        Except.ok r := by
      cases hires <;> exact ⟨_, rfl⟩
    have hn : ∃ n, read_nunchuk (Except.ok regs : Except ε (ℕ → ℕ)) = Except.ok n :=
      ⟨_, rfl⟩
    obtain ⟨r, hr⟩ := hc
    obtain ⟨n, hn2⟩ := hn
    refine ⟨by rw [hr]; simp, by rw [hn2]; simp, fun regs2 h => ⟨⟨r, hr⟩, ⟨n, hn2⟩⟩⟩

/-- C10 witness. The unreachability theorem applied at a concrete bus outcome. -/
theorem facade_invalid_input_unreachable_witness :
    (∃ r, read_classic_report false (Except.ok (fun i => i) : Except Unit (ℕ → ℕ)) =
      Except.ok r)
  ∧ read_nunchuk (Except.ok (fun i => i) : Except Unit (ℕ → ℕ)) ≠
      Except.error DriverError.InvalidInputData :=
  ⟨((facade_invalid_input_unreachable Unit false (Except.ok fun i => i)).2.2
      (fun i => i) rfl).1,
   (facade_invalid_input_unreachable Unit false (Except.ok fun i => i)).2.1⟩

/-- C9 counterexample. Two identity blocks that agree on the four pattern byte
positions 0, 1, 4 and 5 classify differently, because classification also
depends on the guard bytes 2 and 3: `[0,0,164,32,3,1]` is Classic while
`[0,0,0,32,3,1]` is Unrecognized. -/
theorem identify_not_four_positions :
    (ControllerIdReport.mk 0 0 164 32 3 1).b0 = (ControllerIdReport.mk 0 0 0 32 3 1).b0
  ∧ (ControllerIdReport.mk 0 0 164 32 3 1).b1 = (ControllerIdReport.mk 0 0 0 32 3 1).b1
  ∧ (ControllerIdReport.mk 0 0 164 32 3 1).b4 = (ControllerIdReport.mk 0 0 0 32 3 1).b4
  ∧ (ControllerIdReport.mk 0 0 164 32 3 1).b5 = (ControllerIdReport.mk 0 0 0 32 3 1).b5
  ∧ identify_controller ⟨0, 0, 164, 32, 3, 1⟩ = some ControllerType.Classic
  ∧ identify_controller ⟨0, 0, 0, 32, 3, 1⟩ = none := by decide

/-- C9 (amended). Classification depends on six byte positions, split in two
groups: when the guard bytes 2 and 3 fail the check, the four pattern bytes
0, 1, 4, 5 are don't-care (the result is Unrecognized whatever they hold); and
for two blocks that both pass the guard, classification is determined by the
four pattern bytes alone. -/
theorem identify_guard_pattern_dependence :
    (∀ id : ControllerIdReport, id.b2 ≠ 164 ∨ id.b3 ≠ 32 → identify_controller id = none)
  ∧ (∀ id id' : ControllerIdReport, id.b2 = 164 → id.b3 = 32 →
      id'.b2 = 164 → id'.b3 = 32 →
      id.b0 = id'.b0 → id.b1 = id'.b1 → id.b4 = id'.b4 → id.b5 = id'.b5 →
      identify_controller id = identify_controller id') := by
  constructor
  · intro id h
    simp [identify_controller, h]
  · intro id id' h2 h3 h2' h3' e0 e1 e4 e5
    simp [identify_controller, h2, h3, h2', h3', e0, e1, e4, e5]

/-- C9 witness. The dependence theorem applied at concrete blocks: a
guard-failing block with arbitrary pattern bytes is Unrecognized, and two
guard-passing blocks with equal pattern bytes classify identically. -/
theorem identify_guard_pattern_dependence_witness :
    identify_controller ⟨7, 7, 1, 2, 7, 7⟩ = none
  ∧ identify_controller ⟨0, 0, 164, 32, 3, 1⟩ = identify_controller ⟨0, 0, 164, 32, 3, 1⟩ :=
  ⟨identify_guard_pattern_dependence.1 ⟨7, 7, 1, 2, 7, 7⟩ (Or.inl (by decide)),
   identify_guard_pattern_dependence.2 ⟨0, 0, 164, 32, 3, 1⟩ ⟨0, 0, 164, 32, 3, 1⟩
     rfl rfl rfl rfl rfl rfl rfl rfl⟩

end WiiExt
